import Mathlib

/-!
Verification development for `fetch_candles.py` (8am-stock-candle-fetcher).

Shallow embedding conventions:

* A point in time is an `Int`: seconds since a fixed epoch, with the epoch
  chosen so that day number 0 (i.e. `t / 86400 = 0`) is a Monday.  Python's
  `date.weekday()` (Monday = 0 … Sunday = 6) is then `day % 7`.
* A calendar date is its day number (an `Int`, days since that epoch).
* The US/Eastern timezone rules (`pytz.timezone('US/Eastern')`,
  `tz_localize('UTC').tz_convert(eastern)`) are an external dependency of the
  program; they are modelled as a parameter `tz : Int → Int` giving the UTC
  offset in seconds as a function of the UTC timestamp (for the real
  US/Eastern zone this is −18000 in winter, −14400 in summer).  Converting a
  UTC timestamp `t` to Eastern wall-clock seconds is `t + tz t`.
* The network (`requests.get` + `response.json()`) is modelled by a
  `FetchOutcome` per symbol, supplied as an environment `String → FetchOutcome`.
* `strftime` rendering of timestamps into file names is presentation only and
  is modelled by passing the rendered strings as parameters.
* Prices are `Rat` (the JSON decimal numbers), volume is `Int`.
-/

/-! ## Wall-clock arithmetic -/

/-- Seconds in a civil day. -/
def secondsPerDay : Int := 86400

/-- Convert a UTC timestamp to Eastern wall-clock seconds:
`df['date'].dt.tz_localize('UTC').dt.tz_convert(eastern)` (line 45),
with the zone rules abstracted as `tz`. -/
def easternTs (tz : Int → Int) (t : Int) : Int := t + tz t

/-- Civil date (day number) of a wall-clock timestamp: `.dt.date` / `.date()`. -/
def civilDate (t : Int) : Int := t / secondsPerDay

/-- Seconds elapsed since midnight of a wall-clock timestamp. -/
def secondsOfDay (t : Int) : Int := t % secondsPerDay

/-- Hour component of a wall-clock timestamp: `.time().hour`. -/
def hourOf (t : Int) : Int := secondsOfDay t / 3600

/-- Minute component of a wall-clock timestamp: `.time().minute`. -/
def minuteOf (t : Int) : Int := secondsOfDay t % 3600 / 60

/-- Second component of a wall-clock timestamp: `.time().second`. -/
def secondOf (t : Int) : Int := secondsOfDay t % 60

/-! ## Data model -/

/-- One OHLCV bar, as parsed from one element of the provider's JSON array
(lines 25-26: the `date` string is parsed to a timestamp, treated as UTC).
`opn` is the source's `open` field (`open` is a reserved word in Lean). -/
structure Bar where
  dateUtc : Int
  opn : Rat
  high : Rat
  low : Rat
  close : Rat
  volume : Int
deriving DecidableEq

/-- The dictionary built at lines 54-63 when the 8:30 candle is found.
`date` and `date_et` hold the bar's UTC and Eastern timestamps (the source
renders them with `strftime`; the rendering is presentation only). -/
structure CandleRecord where
  symbol : String
  date : Int
  date_et : Int
  opn : Rat
  high : Rat
  low : Rat
  close : Rat
  volume : Int
deriving DecidableEq

/-! ## Candle Fetcher (`fetch_intraday_candles`, lines 14-34) -/

/-- Outcome of the single `requests.get` call for one symbol:
either a network-level failure (connection error, timeout, …, which
`requests.get` raises) or an HTTP response with a status code and a body.
The body is `none` when absent/unparseable (`response.json()` raises),
otherwise the parsed JSON array of bars. -/
inductive FetchOutcome where
  | netError : FetchOutcome
  | httpResponse (status : Nat) (body : Option (List Bar)) : FetchOutcome
deriving DecidableEq

/-- `fetch_intraday_candles` (lines 14-34).  Any exception inside the `try`
(network failure, `raise_for_status` — which raises exactly for status codes
400-599 — or a failing `response.json()`) is caught and yields `None`
(lines 32-34); an empty parsed array is falsy, so `if data:` also yields
`None` (lines 28-30).  Otherwise the parsed bars are returned. -/
def fetch_intraday_candles (o : FetchOutcome) : Option (List Bar) :=
  match o with
  | .netError => none
  | .httpResponse status body =>
    if 400 ≤ status ∧ status < 600 then none
    else
      match body with
      | none => none
      | some [] => none
      | some bars => some bars

/-! ## Window Selector (`get_830_candle_for_date`, lines 36-66) -/

/-- The record built from a matching bar (lines 54-63). -/
def barRecord (symbol : String) (tz : Int → Int) (b : Bar) : CandleRecord :=
  { symbol := symbol
    date := b.dateUtc
    date_et := easternTs tz b.dateUtc
    opn := b.opn
    high := b.high
    low := b.low
    close := b.close
    volume := b.volume }

/-- The `for idx, row in df_target.iterrows():` loop (lines 51-63): scan the
date-filtered bars in order and return the record of the first bar whose
Eastern time has `hour == 8 and minute == 30` (line 53 — note: the seconds
component is not inspected). -/
def find830 (symbol : String) (tz : Int → Int) : List Bar → Option CandleRecord
  | [] => none
  | b :: rest =>
    if hourOf (easternTs tz b.dateUtc) = 8 ∧ minuteOf (easternTs tz b.dateUtc) = 30 then
      some (barRecord symbol tz b)
    else
      find830 symbol tz rest

/-- `get_830_candle_for_date` (lines 36-66).  The second component counts the
number of `fetch_intraday_candles` invocations this call performs: line 38
calls the fetcher unconditionally, exactly once.  Line 40 returns `None` when
the fetch failed or the frame is empty; lines 44-48 convert to Eastern and
filter to the target date; lines 51-63 pick the first 8:30 bar. -/
def get_830_candle_for_date (env : String → FetchOutcome) (tz : Int → Int)
    (symbol : String) (target_date : Int) : Option CandleRecord × Nat :=
  match fetch_intraday_candles (env symbol) with
  | none => (none, 1)
  | some bars =>
    if bars = [] then (none, 1)
    else
      (find830 symbol tz
        (bars.filter (fun b => civilDate (easternTs tz b.dateUtc) == target_date)), 1)

/-! ## Date-Range Planner (lines 79-96) -/

/-- The `while days_found < 5 and days_back < 10:` loop of mode
`last_5_days` (lines 85-94).  `fuel` is the number of `days_back` values
still below the bound 10, so the loop as called from `datesToFetch`
(with `found = 0`, `back = 0`, `fuel = 10`) is exactly the source loop:
it stops when `found` reaches 5 or `back` reaches 10.  A date `d` is a
weekday (`check_date.weekday() < 5`, Monday = 0) iff `d % 7 < 5`. -/
def planLoop (now : Int) (found back : Nat) : Nat → List Int
  | 0 => []
  | fuel + 1 =>
    if found < 5 then
      if (now - (back : Int)) % 7 < 5 then
        (now - (back : Int)) :: planLoop now (found + 1) (back + 1) fuel
      else
        planLoop now found (back + 1) fuel
    else []

/-- `dates_to_fetch` as a function of the mode and today's Eastern civil
date (lines 79-96): `today` → `[now]`, `yesterday` → `[now - 1]`,
`last_5_days` → the weekday walk, anything else → `[now]` (lines 95-96). -/
def datesToFetch (mode : String) (now : Int) : List Int :=
  if mode = "today" then [now]
  else if mode = "yesterday" then [now - 1]
  else if mode = "last_5_days" then planLoop now 0 0 10
  else [now]

/-! ## Batch Orchestrator (`fetch_multiple_stocks`, lines 74-113) -/

/-- The inner `for target_date in dates_to_fetch:` loop (lines 102-105) for
one symbol: call `get_830_candle_for_date` per date, appending each found
record.  The second component accumulates the fetch-invocation counts. -/
def runDates (env : String → FetchOutcome) (tz : Int → Int) (symbol : String) :
    List Int → List CandleRecord × Nat
  | [] => ([], 0)
  | d :: rest =>
    let r := get_830_candle_for_date env tz symbol d
    let rec_rest := runDates env tz symbol rest
    match r.1 with
    | some c => (c :: rec_rest.1, r.2 + rec_rest.2)
    | none => (rec_rest.1, r.2 + rec_rest.2)

/-- The outer `for i, symbol in enumerate(symbols):` loop (lines 99-108):
process symbols in order, flattening the per-symbol records.  (The fixed
`time.sleep(0.5)` between symbols has no observable effect on the results
and is not modelled.) -/
def runSymbols (env : String → FetchOutcome) (tz : Int → Int) (dates : List Int) :
    List String → List CandleRecord × Nat
  | [] => ([], 0)
  | s :: rest =>
    let a := runDates env tz s dates
    let b := runSymbols env tz dates rest
    (a.1 ++ b.1, a.2 + b.2)

/-- `fetch_multiple_stocks` (lines 74-113): plan the dates from the mode,
then run every symbol against every planned date.  Returns the flat record
list (the source wraps it in a DataFrame) together with the total number of
`fetch_intraday_candles` invocations performed. -/
def fetch_multiple_stocks (env : String → FetchOutcome) (tz : Int → Int)
    (symbols : List String) (mode : String) (now : Int) : List CandleRecord × Nat :=
  runSymbols env tz (datesToFetch mode now) symbols

/-! ## Symbol Source (`load_stock_list`, lines 115-131)

String primitives are modelled over `String.data` (the character list) so
that everything reduces structurally: `trimChars` is Python's `str.strip()`,
`beforeHash` is `line.split('#')[0]`, `upperChars` is `str.upper()`. -/

/-- Python `str.strip()`: drop whitespace from both ends. -/
def trimChars (cs : List Char) : List Char :=
  ((cs.dropWhile Char.isWhitespace).reverse.dropWhile Char.isWhitespace).reverse

/-- Python `line.startswith('#')`. -/
def startsWithHash : List Char → Bool
  | [] => false
  | c :: _ => c = '#'

/-- Python `line.split('#')[0]`: the prefix before the first `'#'`
(the whole string when no `'#'` occurs). -/
def beforeHash (cs : List Char) : List Char :=
  cs.takeWhile (fun c => c ≠ '#')

/-- Python `str.upper()` (symbols are ASCII). -/
def upperChars (cs : List Char) : List Char :=
  cs.map Char.toUpper

/-- The body of the `for line in f:` loop (lines 121-127) for one line:
strip; skip if empty or starting with `#`; otherwise truncate at the first
`#`, strip, upper-case; keep only if non-empty. -/
def processLine (l : String) : Option String :=
  let line := String.mk (trimChars l.data)
  if line ≠ "" ∧ ¬ startsWithHash line.data then
    let symbol := String.mk (upperChars (trimChars (beforeHash line.data)))
    if symbol ≠ "" then some symbol else none
  else none

/-- The accumulation loop of `load_stock_list` (lines 120-128). -/
def parseWatchlist : List String → List String
  | [] => []
  | l :: rest =>
    match processLine l with
    | some s => s :: parseWatchlist rest
    | none => parseWatchlist rest

/-- Hard-coded fallback list (line 131). -/
def defaultStockList : List String := ["AAPL", "MSFT", "GOOGL", "AMZN", "TSLA"]

/-- `load_stock_list` (lines 115-131).  The file system is modelled as
`Option (List String)`: `none` means `open` raises `FileNotFoundError`
(handled at lines 129-131 by warning and returning the default list),
`some lines` is the file's lines. -/
def load_stock_list (file : Option (List String)) : List String :=
  match file with
  | some lines => parseWatchlist lines
  | none => defaultStockList

/-- Per-line description of the Symbol Source taken from the spec's own
words ("trim; skip lines that are empty or start with `#`; for other lines,
truncate at the first `#`, trim, upper-case; skip if empty"), as a
declarative `filterMap`, to be compared with the source's loop. -/
def specSymbolSource (lines : List String) : List String :=
  lines.filterMap processLine

/-! ## Report Writer (`main`, lines 168-188) -/

/-- CSV header row produced by `df.to_csv` for the record dictionaries. -/
def csvHeader : String :=
  "symbol,date,date_et,open,high,low,close,volume"

/-- One CSV data row for a record (numeric rendering is presentation only;
the timestamps are rendered by `strftime` in the source). -/
def csvRow (r : CandleRecord) : String :=
  r.symbol ++ "," ++ toString r.date ++ "," ++ toString r.date_et ++ ","
    ++ toString r.opn ++ "," ++ toString r.high ++ "," ++ toString r.low ++ ","
    ++ toString r.close ++ "," ++ toString r.volume

/-- The output-file name choice (lines 170-178).  `todayStr` and `ydayStr`
stand for `datetime.now().strftime("%Y%m%d")` of today and yesterday, and
`nowStamp` for `datetime.now().strftime("%Y%m%d_%H%M%S")`; the clock and
`strftime` are the environment.  Note the `else` branch: every mode other
than `today` and `yesterday` gets the `last5days` file name. -/
def outputFilename (mode todayStr ydayStr nowStamp : String) : String :=
  if mode = "today" then
    "data/candles_830am_" ++ todayStr ++ ".csv"
  else if mode = "yesterday" then
    "data/candles_830am_" ++ ydayStr ++ "_backfill.csv"
  else
    "data/candles_830am_last5days_" ++ nowStamp ++ ".csv"

/-- The report step of `main` (lines 168-188).  Returns
`(written file, exit status)`: with no records (`df.empty`), no file is
written, "No candle data retrieved" is printed and the process exits with
status 1 (lines 186-188); otherwise the CSV (header plus one row per record,
in accumulation order) is written under the mode-specific name and the
process ends normally (status 0). -/
def mainReport (records : List CandleRecord) (mode todayStr ydayStr nowStamp : String) :
    Option (String × List String) × Nat :=
  if records = [] then
    (none, 1)
  else
    (some (outputFilename mode todayStr ydayStr nowStamp,
           csvHeader :: records.map csvRow), 0)

/-! ## Failure taxonomy and concrete fixtures -/

/-- The recoverable per-symbol failures, on fetch outcomes: a network-level
failure, an HTTP status that `raise_for_status` raises on (4xx/5xx), an
absent/unparseable body, or an empty JSON array. -/
def recoverableFetchFailure (o : FetchOutcome) : Prop :=
  o = .netError ∨ ∃ status body, o = .httpResponse status body ∧
    ((400 ≤ status ∧ status < 600) ∨ body = none ∨ body = some [])

/-- A fixed Eastern-offset instance of the zone parameter (−5 h, the
US/Eastern standard-time offset, correct for winter timestamps). -/
def tzEST : Int → Int := fun _ => -18000

/-- A bar whose Eastern wall clock (under `tzEST`) reads 08:30:45 on day
19737: `1705325445 - 18000 = 19737 * 86400 + 8 * 3600 + 30 * 60 + 45`. -/
def bar83045 : Bar :=
  { dateUtc := 1705325445, opn := 10, high := 11, low := 9, close := 10, volume := 500 }

/-- A bar whose Eastern wall clock (under `tzEST`) reads exactly 08:30:00
on day 19737. -/
def bar830 : Bar :=
  { dateUtc := 1705325400, opn := 10, high := 11, low := 9, close := 10, volume := 500 }

/-- Environment where every symbol's fetch yields the single 08:30:45 bar. -/
def envSeconds : String → FetchOutcome := fun _ => .httpResponse 200 (some [bar83045])

/-- Environment where every symbol's fetch yields the single 08:30:00 bar. -/
def envClean : String → FetchOutcome := fun _ => .httpResponse 200 (some [bar830])

/-- Environment where exactly the symbol `MSFT` suffers a network failure. -/
def envFail : String → FetchOutcome :=
  fun s => if s = "MSFT" then .netError else .httpResponse 200 (some [bar830])

/-- A concrete selected-candle record, for the Report Writer instances. -/
def sampleRecord : CandleRecord := barRecord "AAPL" tzEST bar830

/-! ## Helper lemmas about the Date-Range Planner loop -/

/-- Shifting the starting date by a whole number of weeks shifts every
collected date by the same amount (the weekday test is invariant). -/
theorem planLoop_shift (q now : Int) (fuel : Nat) : ∀ found back,
    planLoop (now + 7 * q) found back fuel =
      (planLoop now found back fuel).map (fun x => x + 7 * q) := by
  induction fuel with
  | zero => intro found back; rfl
  | succ fuel ih =>
    intro found back
    simp only [planLoop]
    by_cases h5 : found < 5
    · simp only [if_pos h5]
      by_cases hw : (now - (back : Int)) % 7 < 5
      · rw [if_pos (by omega : (now + 7 * q - (back : Int)) % 7 < 5), if_pos hw,
          ih (found + 1) (back + 1)]
        simp only [List.map_cons]
        congr 1
        omega
      · rw [if_neg (by omega : ¬ (now + 7 * q - (back : Int)) % 7 < 5), if_neg hw]
        exact ih found (back + 1)
    · simp only [if_neg h5, List.map_nil]

/-- The planner loop, declaratively: among the offsets still to be examined,
keep the weekday ones, stop after the quota of `5 - found` is reached, and
turn each kept offset into its date. -/
theorem planLoop_eq (now : Int) (fuel : Nat) : ∀ found back,
    planLoop now found back fuel =
      ((((List.range' back fuel).filter
          (fun k : Nat => decide ((now - (k : Int)) % 7 < 5))).take (5 - found)).map
        (fun k : Nat => now - (k : Int))) := by
  induction fuel with
  | zero =>
    intro found back
    simp [planLoop]
  | succ fuel ih =>
    intro found back
    rw [List.range'_succ back fuel 1]
    simp only [planLoop]
    by_cases h5 : found < 5
    · simp only [if_pos h5]
      by_cases hw : (now - (back : Int)) % 7 < 5
      · rw [if_pos hw]
        simp only [List.filter_cons, decide_eq_true_eq]
        rw [if_pos hw, show 5 - found = (5 - (found + 1)) + 1 by omega,
          List.take_succ_cons, List.map_cons, ih (found + 1) (back + 1)]
      · rw [if_neg hw]
        simp only [List.filter_cons, decide_eq_true_eq]
        rw [if_neg hw]
        exact ih found (back + 1)
    · have h0 : 5 - found = 0 := by omega
      rw [if_neg h5, h0, List.take_zero, List.map_nil]

/-! ## Helper lemmas about the Window Selector and the Batch Orchestrator -/

/-- Soundness of the selection loop: a returned record is the record of some
bar of the scanned list whose Eastern hour is 8 and minute is 30. -/
theorem find830_some (symbol : String) (tz : Int → Int) (l : List Bar) (r : CandleRecord)
    (h : find830 symbol tz l = some r) :
    ∃ b, b ∈ l ∧ r = barRecord symbol tz b ∧
      hourOf (easternTs tz b.dateUtc) = 8 ∧ minuteOf (easternTs tz b.dateUtc) = 30 := by
  induction l with
  | nil => simp [find830] at h
  | cons b rest ih =>
    simp only [find830] at h
    by_cases hb : hourOf (easternTs tz b.dateUtc) = 8 ∧ minuteOf (easternTs tz b.dateUtc) = 30
    · rw [if_pos hb] at h
      exact ⟨b, List.mem_cons_self b rest, (Option.some.inj h).symm, hb.1, hb.2⟩
    · rw [if_neg hb] at h
      obtain ⟨b', hb', hrec⟩ := ih h
      exact ⟨b', List.mem_cons_of_mem b hb', hrec⟩

/-- If `b` is in the scanned list, passes the 8:30 test, and is the only
element of the list passing it, the selection loop returns `b`'s record. -/
theorem find830_first (symbol : String) (tz : Int → Int) (l : List Bar) (b : Bar)
    (hmem : b ∈ l)
    (hb : hourOf (easternTs tz b.dateUtc) = 8 ∧ minuteOf (easternTs tz b.dateUtc) = 30)
    (huniq : ∀ b' ∈ l,
      hourOf (easternTs tz b'.dateUtc) = 8 ∧ minuteOf (easternTs tz b'.dateUtc) = 30 → b' = b) :
    find830 symbol tz l = some (barRecord symbol tz b) := by
  induction l with
  | nil => cases hmem
  | cons c rest ih =>
    simp only [find830]
    by_cases hc : hourOf (easternTs tz c.dateUtc) = 8 ∧ minuteOf (easternTs tz c.dateUtc) = 30
    · rw [if_pos hc, huniq c (List.mem_cons_self c rest) hc]
    · rw [if_neg hc]
      have hbm : b ∈ rest := by
        rcases List.mem_cons.mp hmem with h | h
        · exact absurd (h ▸ hb) hc
        · exact h
      exact ih hbm (fun b' hb' h' => huniq b' (List.mem_cons_of_mem c hb') h')

/-- Every call of `get_830_candle_for_date` performs exactly one
`fetch_intraday_candles` invocation (line 38 runs unconditionally). -/
theorem get_830_count (env : String → FetchOutcome) (tz : Int → Int)
    (symbol : String) (d : Int) : (get_830_candle_for_date env tz symbol d).2 = 1 := by
  unfold get_830_candle_for_date
  cases fetch_intraday_candles (env symbol) with
  | none => rfl
  | some bars =>
    by_cases hb : bars = [] <;> simp [hb]

/-- When the fetch yields no data, `get_830_candle_for_date` returns `None`
(line 40) after its single fetch attempt. -/
theorem get_830_none (env : String → FetchOutcome) (tz : Int → Int)
    (symbol : String) (d : Int) (h : fetch_intraday_candles (env symbol) = none) :
    get_830_candle_for_date env tz symbol d = (none, 1) := by
  unfold get_830_candle_for_date
  rw [h]

/-- The per-symbol date loop performs exactly one fetch per planned date. -/
theorem runDates_count (env : String → FetchOutcome) (tz : Int → Int)
    (symbol : String) (dates : List Int) :
    (runDates env tz symbol dates).2 = dates.length := by
  induction dates with
  | nil => rfl
  | cons d rest ih =>
    simp only [runDates]
    cases hc : (get_830_candle_for_date env tz symbol d).1 <;>
      simp [get_830_count, ih, Nat.add_comm]

/-- A symbol whose fetch yields no data contributes no records. -/
theorem runDates_none (env : String → FetchOutcome) (tz : Int → Int)
    (symbol : String) (dates : List Int)
    (h : fetch_intraday_candles (env symbol) = none) :
    (runDates env tz symbol dates).1 = [] := by
  induction dates with
  | nil => rfl
  | cons d rest ih =>
    simp only [runDates]
    rw [get_830_none env tz symbol d h]
    simpa using ih

/-- Total fetch invocations of the symbol loop: one per symbol per date. -/
theorem runSymbols_count (env : String → FetchOutcome) (tz : Int → Int)
    (dates : List Int) (symbols : List String) :
    (runSymbols env tz dates symbols).2 = symbols.length * dates.length := by
  induction symbols with
  | nil => simp [runSymbols]
  | cons s rest ih =>
    simp only [runSymbols]
    simp [runDates_count, ih, List.length_cons, Nat.succ_mul, Nat.add_comm]

/-- Every recoverable failure makes `fetch_intraday_candles` return `None`
rather than raise (the `except` at lines 32-34 and the falsiness test at
lines 24-30). -/
theorem fetch_none_of_failure (o : FetchOutcome) (h : recoverableFetchFailure o) :
    fetch_intraday_candles o = none := by
  rcases h with h | ⟨status, body, rfl, hcase⟩
  · rw [h]
    rfl
  · rcases hcase with hs | hb | hb
    · simp [fetch_intraday_candles, hs]
    · subst hb
      by_cases h4 : 400 ≤ status ∧ status < 600 <;> simp [fetch_intraday_candles, h4]
    · subst hb
      by_cases h4 : 400 ≤ status ∧ status < 600 <;> simp [fetch_intraday_candles, h4]

/-! ## Claims -/

/-- Claim C1 (amended): for every environment, zone rules, symbol and target
date, the Window Selector (`get_830_candle_for_date`) only returns records
whose Eastern wall clock has hour 8 and minute 30 and whose Eastern civil
date equals the target date.  The seconds component is NOT inspected by the
source (line 53 tests only `hour` and `minute`), so — contrary to the claim
as stated — a bar whose Eastern time-of-day is 08:30:45 can be returned;
see the counterexample. -/
theorem C1_selected_hour_minute (env : String → FetchOutcome) (tz : Int → Int)
    (symbol : String) (target_date : Int) (r : CandleRecord)
    (h : (get_830_candle_for_date env tz symbol target_date).1 = some r) :
    hourOf r.date_et = 8 ∧ minuteOf r.date_et = 30 ∧ civilDate r.date_et = target_date := by
  unfold get_830_candle_for_date at h
  split at h
  · simp at h
  · split at h
    · simp at h
    · obtain ⟨b, hbmem, hrec, hh, hm⟩ := find830_some symbol tz _ r h
      have hdate : civilDate (easternTs tz b.dateUtc) = target_date := by
        have := (List.mem_filter.mp hbmem).2
        simpa using this
      subst hrec
      exact ⟨hh, hm, hdate⟩

/-- Closed instance of the amended C1 invariant. -/
theorem C1_selected_hour_minute_witness :
    hourOf (barRecord "AAPL" tzEST bar830).date_et = 8 ∧
    minuteOf (barRecord "AAPL" tzEST bar830).date_et = 30 ∧
    civilDate (barRecord "AAPL" tzEST bar830).date_et = 19737 :=
  C1_selected_hour_minute envClean tzEST "AAPL" 19737 (barRecord "AAPL" tzEST bar830)
    (by decide)

/-- Counterexample to claim C1 as stated: a bar whose Eastern time-of-day
is 08:30:45 — which differs from 08:30:00 in its seconds component — IS
returned as the selected record, because line 53 never inspects seconds. -/
theorem C1_seconds_not_checked_cex :
    (get_830_candle_for_date envSeconds tzEST "AAPL" 19737).1 =
      some (barRecord "AAPL" tzEST bar83045) ∧
    hourOf (barRecord "AAPL" tzEST bar83045).date_et = 8 ∧
    minuteOf (barRecord "AAPL" tzEST bar83045).date_et = 30 ∧
    secondOf (barRecord "AAPL" tzEST bar83045).date_et = 45 := by decide

/-- Claim C2 (amended): the Candle Fetcher is invoked once per
(symbol, target date) pair — `get_830_candle_for_date` re-fetches the bars
on every call (line 38), so with `d` planned dates the fetch happens `d`
times per symbol, NOT once per symbol as claimed. -/
theorem C2_fetch_per_symbol_date (env : String → FetchOutcome) (tz : Int → Int)
    (symbols : List String) (mode : String) (now : Int) :
    (fetch_multiple_stocks env tz symbols mode now).2 =
      symbols.length * (datesToFetch mode now).length :=
  runSymbols_count env tz (datesToFetch mode now) symbols

/-- Counterexample to claim C2 as stated: a `last_5_days` run over a single
symbol performs 5 fetches, not 1. -/
theorem C2_refetch_cex :
    (fetch_multiple_stocks (fun _ => .netError) tzEST ["AAPL"] "last_5_days" 3).2 = 5 ∧
    (5 : Nat) ≠ 1 := by decide

/-- Claim C3 (confirmed): when the fetched bar set contains exactly one bar
at Eastern 08:30 on the target date, the Window Selector returns exactly
that bar's `open`/`high`/`low`/`close`/`volume` fields unmodified, together
with the symbol and the bar's UTC and Eastern timestamps. -/
theorem C3_unique_bar_returned (env : String → FetchOutcome) (tz : Int → Int)
    (symbol : String) (target : Int) (bars : List Bar) (b : Bar)
    (hfetch : fetch_intraday_candles (env symbol) = some bars)
    (hmem : b ∈ bars)
    (hdate : civilDate (easternTs tz b.dateUtc) = target)
    (hhm : hourOf (easternTs tz b.dateUtc) = 8 ∧ minuteOf (easternTs tz b.dateUtc) = 30)
    (huniq : ∀ b' ∈ bars, civilDate (easternTs tz b'.dateUtc) = target →
      hourOf (easternTs tz b'.dateUtc) = 8 → minuteOf (easternTs tz b'.dateUtc) = 30 →
      b' = b) :
    (get_830_candle_for_date env tz symbol target).1 =
      some { symbol := symbol, date := b.dateUtc, date_et := easternTs tz b.dateUtc,
             opn := b.opn, high := b.high, low := b.low, close := b.close,
             volume := b.volume } := by
  unfold get_830_candle_for_date
  split
  · next heq =>
    rw [hfetch] at heq
    exact Option.noConfusion heq
  · next bars' heq =>
    rw [hfetch] at heq
    obtain rfl : bars' = bars := (Option.some.inj heq).symm
    rw [if_neg (by rintro rfl; cases hmem)]
    show find830 symbol tz _ = some _
    apply find830_first
    · exact List.mem_filter.mpr ⟨hmem, by simpa using hdate⟩
    · exact hhm
    · intro b' hb' h'
      have hm' := List.mem_filter.mp hb'
      exact huniq b' hm'.1 (by simpa using hm'.2) h'.1 h'.2

/-- Closed instance of C3: a one-bar set at Eastern 08:30:00 on day 19737. -/
theorem C3_unique_bar_returned_witness :
    (get_830_candle_for_date envClean tzEST "AAPL" 19737).1 =
      some { symbol := "AAPL", date := bar830.dateUtc,
             date_et := easternTs tzEST bar830.dateUtc,
             opn := bar830.opn, high := bar830.high, low := bar830.low,
             close := bar830.close, volume := bar830.volume } :=
  C3_unique_bar_returned envClean tzEST "AAPL" 19737 [bar830] bar830
    (by decide) (by decide) (by decide) (by decide) (by decide)

/-- Claim C4 (confirmed): in mode `last_5_days` the planner walks backward
day-by-day from today's Eastern civil date (offset 0 included), keeps only
offsets whose date is a Monday-Friday weekday, stops after 5 such dates or
10 examined days, and yields the dates in descending-recency order (the
first conjunct is exactly this walk, as a take/filter over the offsets
0..9); run on a Thursday (`now % 7 = 3`, Monday = 0) it returns exactly the
5 most recent weekdays ending on that Thursday — Thursday, Wednesday,
Tuesday, Monday and the previous Friday — with no weekend present. -/
theorem C4_last5days_planner (now : Int) :
    datesToFetch "last_5_days" now =
      ((((List.range 10).filter
          (fun k : Nat => decide ((now - (k : Int)) % 7 < 5))).take 5).map
        (fun k : Nat => now - (k : Int))) ∧
    (now % 7 = 3 →
      datesToFetch "last_5_days" now = [now, now - 1, now - 2, now - 3, now - 6]) := by
  have hdf : datesToFetch "last_5_days" now = planLoop now 0 0 10 := rfl
  constructor
  · rw [hdf, planLoop_eq now 10 0 0, List.range_eq_range' 10]
  · intro h3
    obtain ⟨q, hq⟩ : ∃ q, now = 3 + 7 * q := ⟨now / 7, by omega⟩
    subst hq
    rw [hdf, planLoop_shift q 3 10 0 0,
      show planLoop 3 0 0 10 = [3, 2, 1, 0, -3] by decide]
    simp only [List.map_cons, List.map_nil, List.cons.injEq, and_true, true_and]
    omega

/-- Closed instance of C4 on a concrete Thursday (day 3 of the Monday-based
epoch): the five dates are Thursday 3, Wednesday 2, Tuesday 1, Monday 0 and
the previous Friday −3. -/
theorem C4_last5days_planner_witness :
    datesToFetch "last_5_days" 3 = [3, 2, 1, 0, -3] :=
  (C4_last5days_planner 3).2 (by decide)

/-- Claim C10 (confirmed): the `last_5_days` planner always returns exactly
5 dates — the fewer-than-5 fallback is unreachable because among the 10
examined offsets at least 6 are weekdays, whatever today's weekday is. -/
theorem C10_always_five_dates (now : Int) :
    (datesToFetch "last_5_days" now).length = 5 ∧
    6 ≤ ((List.range 10).filter
          (fun k : Nat => decide ((now - (k : Int)) % 7 < 5))).length := by
  obtain ⟨q, r, hr0, hr7, hnow⟩ : ∃ q r, 0 ≤ r ∧ r < 7 ∧ now = r + 7 * q :=
    ⟨now / 7, now % 7, by omega, by omega, by omega⟩
  subst hnow
  constructor
  · rw [show datesToFetch "last_5_days" (r + 7 * q) = planLoop (r + 7 * q) 0 0 10 from rfl,
      planLoop_shift q r 10 0 0, List.length_map]
    interval_cases r <;> decide
  · rw [List.filter_congr
      (fun k _ => by rw [decide_eq_decide]; omega :
        ∀ k ∈ List.range 10, decide ((r + 7 * q - (k : Int)) % 7 < 5)
          = decide ((r - (k : Int)) % 7 < 5))]
    interval_cases r <;> decide

/-- Claim C5 (amended): a network-level failure, an HTTP status that
`raise_for_status` raises on (4xx/5xx), or an empty/absent response body
makes the Candle Fetcher return "no data" instead of raising, and the Batch
Orchestrator simply continues: with 3 symbols of which the second one's
fetch fails, the batch result is exactly the concatenation of the runs of
symbols 1 and 3 (records only for symbols 1 and 3, input order preserved).
The claim's "non-2xx" is too wide: a 1xx/3xx status with a parseable
non-empty body is returned as data — see the counterexample. -/
theorem C5_failures_skipped (env : String → FetchOutcome) (tz : Int → Int)
    (mode : String) (now : Int) (s1 s2 s3 : String)
    (h : recoverableFetchFailure (env s2)) :
    fetch_intraday_candles (env s2) = none ∧
    (fetch_multiple_stocks env tz [s1, s2, s3] mode now).1 =
      (fetch_multiple_stocks env tz [s1] mode now).1 ++
        (fetch_multiple_stocks env tz [s3] mode now).1 := by
  have hnone := fetch_none_of_failure (env s2) h
  refine ⟨hnone, ?_⟩
  unfold fetch_multiple_stocks
  simp only [runSymbols]
  rw [runDates_none env tz s2 (datesToFetch mode now) hnone]
  simp

/-- Closed instance of C5: symbols `AAPL, MSFT, GOOGL` where exactly
`MSFT`'s fetch suffers a network failure. -/
theorem C5_failures_skipped_witness :
    fetch_intraday_candles (envFail "MSFT") = none ∧
    (fetch_multiple_stocks envFail tzEST ["AAPL", "MSFT", "GOOGL"] "today" 19737).1 =
      (fetch_multiple_stocks envFail tzEST ["AAPL"] "today" 19737).1 ++
        (fetch_multiple_stocks envFail tzEST ["GOOGL"] "today" 19737).1 :=
  C5_failures_skipped envFail tzEST "today" 19737 "AAPL" "MSFT" "GOOGL"
    (Or.inl (by decide))

/-- Counterexample to claim C5 as stated: status 300 is not a 2xx status,
yet — since `raise_for_status` raises only on 4xx/5xx — a 300 response with
a parseable non-empty body is returned as data, not as "no data". -/
theorem C5_non2xx_cex :
    fetch_intraday_candles (.httpResponse 300 (some [bar830])) = some [bar830] ∧
    ¬ (200 ≤ 300 ∧ 300 ≤ 299) := by decide

/-- Claim C6 (confirmed): with zero collected records the Report Writer
writes no CSV file and the process exits with status 1 (the only whole-run
failure of the reporting step); with N > 0 records it exits with status 0
and writes header plus one row per record, in accumulation order — N+1
lines — under the mode-specific file name: `candles_830am_{date}.csv` for
`today`, `candles_830am_{date}_backfill.csv` for `yesterday`, and
`candles_830am_last5days_{timestamp}.csv` for `last_5_days`. -/
theorem C6_report_writer (records : List CandleRecord) (mode t y s : String) :
    (records = [] → mainReport records mode t y s = (none, 1)) ∧
    (records ≠ [] →
      (mainReport records mode t y s).2 = 0 ∧
      (mainReport records mode t y s).1 =
        some (outputFilename mode t y s, csvHeader :: records.map csvRow) ∧
      (csvHeader :: records.map csvRow).length = records.length + 1 ∧
      (mode = "today" →
        outputFilename mode t y s = "data/candles_830am_" ++ t ++ ".csv") ∧
      (mode = "yesterday" →
        outputFilename mode t y s = "data/candles_830am_" ++ y ++ "_backfill.csv") ∧
      (mode = "last_5_days" →
        outputFilename mode t y s = "data/candles_830am_last5days_" ++ s ++ ".csv")) := by
  constructor
  · intro h
    simp [mainReport, h]
  · intro h
    refine ⟨by simp [mainReport, h], by simp [mainReport, h],
      by simp [List.length_cons, List.length_map], ?_, ?_, ?_⟩
    · intro hm
      subst hm
      rfl
    · intro hm
      subst hm
      rfl
    · intro hm
      subst hm
      rfl

/-- Closed instance of C6: the empty batch and a one-record batch. -/
theorem C6_report_writer_witness :
    mainReport [] "today" "D" "Y" "S" = (none, 1) ∧
    (mainReport [sampleRecord] "today" "D" "Y" "S").1 =
      some (outputFilename "today" "D" "Y" "S", csvHeader :: [sampleRecord].map csvRow) ∧
    (csvHeader :: [sampleRecord].map csvRow).length = [sampleRecord].length + 1 :=
  ⟨(C6_report_writer [] "today" "D" "Y" "S").1 rfl,
   ((C6_report_writer [sampleRecord] "today" "D" "Y" "S").2 (by simp)).2.1,
   ((C6_report_writer [sampleRecord] "today" "D" "Y" "S").2 (by simp)).2.2.1⟩

/-- Claim C7 (amended): for an unrecognized mode the Date-Range Planner
does fall back to the `today` behavior (the single date = today, lines
95-96), but the output file naming does NOT follow the `today` pattern: the
`else` branch of the naming code (lines 176-178) gives every unrecognized
mode the `last_5_days`-style file name. -/
theorem C7_unknown_mode (mode : String) (now : Int) (t y s : String)
    (h1 : mode ≠ "today") (h2 : mode ≠ "yesterday") (h3 : mode ≠ "last_5_days") :
    datesToFetch mode now = [now] ∧
    outputFilename mode t y s = "data/candles_830am_last5days_" ++ s ++ ".csv" := by
  constructor
  · unfold datesToFetch
    rw [if_neg h1, if_neg h2, if_neg h3]
  · unfold outputFilename
    rw [if_neg h1, if_neg h2]

/-- Closed instance of the amended C7 for the mode string `bogus`. -/
theorem C7_unknown_mode_witness :
    datesToFetch "bogus" 19737 = [19737] ∧
    outputFilename "bogus" "D" "Y" "S" = "data/candles_830am_last5days_" ++ "S" ++ ".csv" :=
  C7_unknown_mode "bogus" 19737 "D" "Y" "S" (by decide) (by decide) (by decide)

/-- Counterexample to claim C7 as stated: a one-record run with mode
`bogus` is written under the `last_5_days`-pattern file name, which differs
from the file name the same run would get in mode `today` — so the rest of
the run does not follow the `today` behavior in its output file naming. -/
theorem C7_filename_cex :
    (mainReport [sampleRecord] "bogus" "D" "Y" "S").1 =
      some ("data/candles_830am_last5days_S.csv", [csvHeader, csvRow sampleRecord]) ∧
    (mainReport [sampleRecord] "today" "D" "Y" "S").1 =
      some ("data/candles_830am_D.csv", [csvHeader, csvRow sampleRecord]) ∧
    ("data/candles_830am_last5days_S.csv" : String) ≠ "data/candles_830am_D.csv" := by
  decide

/-- Claim C8 (confirmed): the Symbol Source's accumulation loop is exactly
the per-line pipeline the claim describes (trim; skip empty or
`#`-starting lines; truncate at the first `#`; trim; upper-case; skip if
empty), applied line by line — and on the file
`AAPL / # comment / MSFT # inline / (blank)` it yields `["AAPL", "MSFT"]`. -/
theorem C8_symbol_source (lines : List String) :
    parseWatchlist lines = specSymbolSource lines ∧
    load_stock_list (some ["AAPL", "# comment", "MSFT # inline", ""]) = ["AAPL", "MSFT"] := by
  constructor
  · induction lines with
    | nil => rfl
    | cons l rest ih =>
      simp only [parseWatchlist, specSymbolSource, List.filterMap_cons]
      cases h : processLine l <;> simp [h, ih, specSymbolSource]
  · decide

/-- Claim C9 (confirmed): a missing watchlist file does not raise — the
Symbol Source warns and returns the fixed default five-symbol list. -/
theorem C9_missing_file_default :
    load_stock_list none = ["AAPL", "MSFT", "GOOGL", "AMZN", "TSLA"] := rfl
